import Mathlib

/-!
Shallow embedding of the industry-news / prompt-context backend
(`backend/api/news/*`, `backend/api/memory.py`, `backend/services/prompt_context.py`)
and proofs about its specified behaviour.

Conventions used throughout:
* Python JSON values are modelled by the inductive `Qtma.Json`; `dict.get`
  returning `None` for a missing key is modelled by returning `Json.null`.
* Python exceptions are modelled with `Except`: a `.error` value is a raised
  exception escaping the translated function.
* Python truthiness (`if x:`) is modelled by explicit `truthy` functions.
* `os.getenv`, the outbound HTTP call, and the LLM call are oracles packaged
  in `World` structures; a theorem quantifying over all worlds covers every
  behaviour of those collaborators.
-/

set_option autoImplicit false

namespace Qtma

/-- JSON values as produced by `response.json()` in the Python code. -/
inductive Json where
  | null
  | str (s : String)
  | num (n : Int)
  | bool (b : Bool)
  | arr (items : List Json)
  | obj (fields : List (String × Json))

/-- First value bound to `key` in a (Python-dict-like) association list. -/
def assocFind {α : Type} : List (String × α) → String → Option α
  | [], _ => none
  | (k, v) :: rest, key => if k = key then some v else assocFind rest key

/-- Python `d[k] = v` on a dict rendered as an assoc list: replaces the value
in place when the key exists (keeping its position), else appends. -/
def dictInsert {α : Type} : List (String × α) → String → α → List (String × α)
  | [], key, v => [(key, v)]
  | (k, w) :: rest, key, v =>
    if k = key then (key, v) :: rest else (k, w) :: dictInsert rest key v

/-- Python truthiness of a JSON value (`bool(x)`). -/
def Json.truthy : Json → Bool
  | .null => false
  | .str s => !s.isEmpty
  | .num n => n != 0
  | .bool b => b
  | .arr items => !items.isEmpty
  | .obj fields => !fields.isEmpty

/-- Python `x or y` on JSON values: `x` when truthy, else `y`. -/
def Json.pyOr (x y : Json) : Json := if x.truthy then x else y

/-- `item.get(key)` — raises `AttributeError` unless `item` is a dict;
a missing key yields `None` (modelled as `Json.null`). -/
def Json.get : Json → String → Except String Json
  | .obj fields, key => .ok ((assocFind fields key).getD .null)
  | _, _ => .error "AttributeError"

/-- `item.get(key, default)` — raises `AttributeError` unless `item` is a dict. -/
def Json.getD : Json → String → Json → Except String Json
  | .obj fields, key, dflt => .ok ((assocFind fields key).getD dflt)
  | _, _, _ => .error "AttributeError"

/-- Python iteration `for item in x`: lists yield their items, dicts their
keys, strings their characters; other values raise `TypeError`. -/
def Json.iter : Json → Except String (List Json)
  | .arr items => .ok items
  | .obj fields => .ok (fields.map (fun kv => .str kv.fst))
  | .str s => .ok (s.data.map (fun c => .str (String.mk [c])))
  | _ => .error "TypeError"

/-- Truthiness of an optional string (`not api_key` is true for both `None`
and the empty string). -/
def optStrTruthy : Option String → Bool
  | none => false
  | some s => !s.isEmpty

/-- Python `x or default` for an optional-int field whose truthiness check
treats `0` as falsy (as `mem.importance or 3` does). -/
def intOptPyOr (x : Option Int) (d : Int) : Int :=
  match x with
  | some n => if n = 0 then d else n
  | none => d

/-- The ASCII whitespace set stripped by Python `str.strip()`:
space, `\t`, `\n`, `\v`, `\f`, `\r` (the model is ASCII-only). -/
def pyIsSpace (c : Char) : Bool := c.toNat = 32 || (9 ≤ c.toNat && c.toNat ≤ 13)

/-- Drop leading characters satisfying `pyIsSpace`. -/
def dropWhileSpace : List Char → List Char
  | [] => []
  | c :: cs => if pyIsSpace c then dropWhileSpace cs else c :: cs

/-- Python `s.strip()`: remove leading and trailing whitespace. -/
def pyStrip (s : String) : String :=
  String.mk ((dropWhileSpace (dropWhileSpace s.data).reverse).reverse)

/-- Python `str.lower()` on one character (ASCII model). -/
def pyLowerChar (c : Char) : Char :=
  if 65 ≤ c.toNat ∧ c.toNat ≤ 90 then Char.ofNat (c.toNat + 32) else c

/-- Python `s.lower()` (ASCII model). -/
def pyLower (s : String) : String := String.mk (s.data.map pyLowerChar)

/-- Split a character list on a separator character, Python-`split` style
(the empty input yields one empty group). -/
def splitChar (sep : Char) : List Char → List (List Char)
  | [] => [[]]
  | c :: rest =>
    match splitChar sep rest with
    | [] => [[]]
    | g :: gs => if c = sep then [] :: g :: gs else (c :: g) :: gs

/-- Python `s.split(",")`. -/
def pySplitComma (s : String) : List String := (splitChar (Char.ofNat 44) s.data).map String.mk

end Qtma

namespace Qtma

/-! ### Article normalization (`backend/api/news/parsers.py` output shape and
the filter on `service.py` line 89) -/

/-- The per-article dict built by every parser: raw JSON values under the
five common keys. -/
structure ArticleDict where
  title : Json
  description : Json
  url : Json
  published_at : Json
  source : Json

/-- The pydantic `Article` model (`backend/api/news/models.py`). -/
structure Article where
  title : String
  description : Option String
  url : String
  published_at : Option String
  source : Option String
deriving DecidableEq

/-- A pydantic `Optional[str]` field: accepts a string or `None`, rejects
everything else with a validation error. -/
def Json.asOptStr : Json → Except String (Option String)
  | .null => .ok none
  | .str s => .ok (some s)
  | _ => .error "ValidationError"

/-- `Article(**article)`: `title` and `url` must be strings (required `str`
fields). The `published_at` field is declared with `alias="publishedAt"` and
the model has no `populate_by_name` configuration, so the `"published_at"`
key passed by the service is ignored as an extra and the field keeps its
`None` default. -/
def Article.ofDict (d : ArticleDict) : Except String Article :=
  match d.title, d.url with
  | .str t, .str u =>
    match d.description.asOptStr, d.source.asOptStr with
    | .ok desc, .ok src =>
      .ok { title := t, description := desc, url := u, published_at := none, source := src }
    | .error m, _ => .error m
    | _, .error m => .error m
  | _, _ => .error "ValidationError"

/-- The filter on `service.py` line 89: `article.get("title") and article.get("url")`. -/
def keepArticle (d : ArticleDict) : Bool := d.title.truthy && d.url.truthy

/-- `[Article(**article) for article in articles_dicts if article.get("title") and article.get("url")]`:
construct in order, keeping only dicts with truthy title and url; the first
pydantic validation error aborts the whole comprehension. -/
def buildArticles : List ArticleDict → Except String (List Article)
  | [] => .ok []
  | d :: rest =>
    if keepArticle d then
      match Article.ofDict d, buildArticles rest with
      | .error m, _ => .error m
      | .ok a, .ok as => .ok (a :: as)
      | .ok _, .error m => .error m
    else buildArticles rest

/-! ### The seven provider parsers (`backend/api/news/parsers.py`) -/

/-- `_parse_gnews`. -/
def parse_gnews (payload : Json) : Except String (List ArticleDict) := do
  let articles ← payload.getD "articles" (.arr [])
  let items ← articles.iter
  items.mapM fun item => do
    let title ← item.get "title"
    let description ← item.get "description"
    let url ← item.get "url"
    let published_at ← item.get "publishedAt"
    let src ← item.get "source"
    let source ← (src.pyOr (.obj [])).get "name"
    pure { title := title, description := description, url := url,
           published_at := published_at, source := source }

/-- `_parse_fmp` (iterates the payload itself). -/
def parse_fmp (payload : Json) : Except String (List ArticleDict) := do
  let items ← payload.iter
  items.mapM fun item => do
    let title ← item.get "title"
    let description ← item.get "text"
    let url ← item.get "url"
    let published_at ← item.get "publishedDate"
    let source ← item.get "site"
    pure { title := title, description := description, url := url,
           published_at := published_at, source := source }

/-- `_parse_newsdata`. -/
def parse_newsdata (payload : Json) : Except String (List ArticleDict) := do
  let results ← payload.getD "results" (.arr [])
  let items ← results.iter
  items.mapM fun item => do
    let title ← item.get "title"
    let d1 ← item.get "description"
    let d2 ← item.get "content"
    let url ← item.get "link"
    let published_at ← item.get "pubDate"
    let source ← item.get "source_id"
    pure { title := title, description := d1.pyOr d2, url := url,
           published_at := published_at, source := source }

/-- `_parse_gdelt`. -/
def parse_gdelt (payload : Json) : Except String (List ArticleDict) := do
  let articles ← payload.getD "articles" (.arr [])
  let items ← articles.iter
  items.mapM fun item => do
    let title ← item.get "title"
    let seendate ← item.get "seendate"
    let url ← item.get "url"
    let s1 ← item.get "sourceCommonName"
    let s2 ← item.get "sourceCountry"
    pure { title := title, description := seendate, url := url,
           published_at := seendate, source := s1.pyOr s2 }

/-- `_parse_guardian`. -/
def parse_guardian (payload : Json) : Except String (List ArticleDict) := do
  let response ← payload.getD "response" (.obj [])
  let results ← response.getD "results" (.arr [])
  let items ← results.iter
  items.mapM fun item => do
    let fields ← item.getD "fields" (.obj [])
    let title ← item.get "webTitle"
    let t1 ← fields.get "trailText"
    let t2 ← fields.get "headline"
    let url ← item.get "webUrl"
    let published_at ← item.get "webPublicationDate"
    pure { title := title, description := t1.pyOr t2, url := url,
           published_at := published_at, source := .str "The Guardian" }

/-- `_parse_newsapi`. -/
def parse_newsapi (payload : Json) : Except String (List ArticleDict) := do
  let articles ← payload.getD "articles" (.arr [])
  let items ← articles.iter
  items.mapM fun item => do
    let src ← item.get "source"
    let title ← item.get "title"
    let description ← item.get "description"
    let url ← item.get "url"
    let published_at ← item.get "publishedAt"
    let source ← (src.pyOr (.obj [])).get "name"
    pure { title := title, description := description, url := url,
           published_at := published_at, source := source }

/-- The loop body of `_parse_alphavantage`. -/
def alphaItem (item : Json) : Except String ArticleDict := do
  let title ← item.get "title"
  let description ← item.get "summary"
  let url ← item.get "url"
  let published_at ← item.get "time_published"
  let source ← item.get "source"
  pure { title := title, description := description, url := url,
         published_at := published_at, source := source }

/-- `_parse_alphavantage` — the only parser that caps its output (`articles[:10]`). -/
def parse_alphavantage (payload : Json) : Except String (List ArticleDict) := do
  let feed ← payload.getD "feed" (.arr [])
  let items ← feed.iter
  let articles ← items.mapM alphaItem
  pure (articles.take 10)

end Qtma

namespace Qtma

/-! ### Summary builder (`backend/api/news/summary_builder.py`) -/

/-- Oracle for `NewsSummaryBuilder`: whether `OPENAI_API_KEY` was set at
construction time (so `self.client` is not `None`), and the outcome of the
`chat.completions.create` call — an exception, or the extracted `content`
(`None` when `response.choices` is empty or the message content is `None`). -/
structure LLMWorld where
  clientConfigured : Bool
  llmResponse : Except String (Option String)

/-- `NewsSummaryBuilder._build_fallback_summary`. -/
def build_fallback_summary (industry : String) (headlines : List String) : String :=
  industry ++ " snapshot: " ++ String.intercalate "; " headlines

/-- `NewsSummaryBuilder._call_llm`: a `.error` result is an exception raised
by the OpenAI SDK propagating out of the method (`provider` only appears in
the prompt text, which the `llmResponse` oracle absorbs). -/
def call_llm (w : LLMWorld) (industry provider : String) (articles : List Article) :
    Except String String :=
  let _ := provider
  if !w.clientConfigured then
    .ok (build_fallback_summary industry (articles.map (·.title)))
  else
    match w.llmResponse with
    | .error e => .error e
    | .ok content =>
      if !optStrTruthy content then
        .ok (build_fallback_summary industry (articles.map (·.title)))
      else
        .ok (pyStrip (content.getD ""))

/-- `NewsSummaryBuilder.build_summary`: total — every exception from the LLM
call is caught and answered with the deterministic fallback. -/
def build_summary (w : LLMWorld) (industry provider : String) (articles : List Article) :
    String :=
  let top_headlines := ((articles.filter (fun a => !a.title.isEmpty)).map (·.title)).take 5
  if top_headlines.isEmpty then
    "No recent " ++ pyLower industry ++ " headlines are available."
  else if !w.clientConfigured then
    build_fallback_summary industry top_headlines
  else
    match call_llm w industry provider (articles.take 5) with
    | .ok s => s
    | .error _ => build_fallback_summary industry top_headlines

end Qtma

namespace Qtma

/-! ### Industry news service (`backend/api/news/service.py`) -/

/-- `IndustryAPIConfig` (`backend/api/news/models.py`); `params_builder` only
feeds the outbound HTTP call, which is abstracted by the `World` oracle, so
it is not carried here. -/
structure IndustryAPIConfig where
  slug : String
  industry : String
  provider : String
  endpoint : String
  parserFn : Json → Except String (List ArticleDict)
  requires_api_key : Bool := true
  api_key_env : Option String := none

/-- `IndustryNewsResponse` (`backend/api/news/models.py`). -/
structure IndustryNewsResponse where
  industry : String
  slug : String
  provider : String
  articles : List Article
  summary : String

/-- One `self._cache[slug]` entry: `{"timestamp": ..., "payload": ...}`. -/
structure CacheEntry where
  timestamp : Int
  payload : IndustryNewsResponse

/-- The mutable state of an `IndustryNewsService` instance: the slug-keyed
config dict built in `__init__`, the cache dict, and the TTL. Timestamps are
whole seconds (`time.time()` values). -/
structure ServiceState where
  configs : List (String × IndustryAPIConfig)
  cache : List (String × CacheEntry)
  cache_ttl : Int

/-- `IndustryNewsService.__init__(configs, summary_builder, cache_ttl_seconds=300)`:
`{config.slug: config for config in configs}` plus an empty cache. -/
def initState (configs : List IndustryAPIConfig) (cache_ttl_seconds : Int := 300) :
    ServiceState :=
  { configs := configs.foldl (fun m c => dictInsert m c.slug c) []
    cache := []
    cache_ttl := cache_ttl_seconds }

/-- Outcomes of the `httpx` GET + `response.raise_for_status()` +
`response.json()` sequence: a decoded body, an `httpx.TimeoutException`, an
`httpx.HTTPError`, or any other exception (e.g. a JSON decode error), which
no `except` clause in `get_industry_news` catches. -/
inductive FetchOutcome where
  | ok (payload : Json)
  | timeout (msg : String)
  | httpError (msg : String)
  | other (msg : String)

/-- Environment oracle for the service: `os.getenv`, the outbound HTTP
request per config, and `summary_builder.build_summary` (total, §4.2). -/
structure World where
  env : String → Option String
  fetch : IndustryAPIConfig → Option String → FetchOutcome
  summarize : String → String → List Article → String

/-- `fastapi.HTTPException` with a plain-string detail. -/
structure HTTPException where
  status_code : Nat
  detail : String
deriving DecidableEq

/-- How a `get_industry_news` call can fail: a raised `HTTPException`, or any
other Python exception escaping uncaught (surfaced as a 500 by the framework). -/
inductive SvcError where
  | httpEx (e : HTTPException)
  | pyErr (msg : String)
deriving DecidableEq

/-- `f"Unknown industry slug '{slug}'. Available options: {...}"`. -/
def unknownSlugDetail (st : ServiceState) (slug : String) : String :=
  "Unknown industry slug " ++ String.singleton (Char.ofNat 39) ++ slug ++
    String.singleton (Char.ofNat 39) ++ ". Available options: " ++
    String.intercalate ", " (st.configs.map Prod.fst)

/-- Detail of the 503 raised when the env var for a required key is unset. -/
def missingKeyDetail (config : IndustryAPIConfig) : String :=
  config.provider ++ " API key missing. Set " ++ (config.api_key_env.getD "None") ++
    " to enable " ++ config.industry ++ " coverage."

/-- Detail of the 503 raised when `_execute_request` raises `MissingAPIKey`. -/
def configIncompleteDetail (config : IndustryAPIConfig) : String :=
  config.provider ++ " configuration incomplete. Please set " ++
    (config.api_key_env.getD "None") ++ "."

/-- `IndustryNewsService._execute_request`, together with the number of
outbound HTTP requests it issues (0 when it raises `MissingAPIKey`
before opening the client, 1 otherwise). -/
def execute_request (w : World) (config : IndustryAPIConfig) (api_key : Option String) :
    (Except Unit FetchOutcome) × Nat :=
  if config.requires_api_key && !optStrTruthy api_key then (.error (), 0)
  else (.ok (w.fetch config api_key), 1)

/-- The cache probe on lines 56-59: `self._cache.get(slug)` and the TTL
check `time.time() - cached["timestamp"] <= self._cache_ttl` (a cache entry
dict is always truthy). -/
def freshEntry (st : ServiceState) (tRead : Int) (slug : String) :
    Option IndustryNewsResponse :=
  match assocFind st.cache slug with
  | some entry => if tRead - entry.timestamp ≤ st.cache_ttl then some entry.payload else none
  | none => none

/-- Result of one `get_industry_news` call: the returned value or raised
error, the service state afterwards, and how many outbound HTTP requests and
summary-builder calls the call performed. -/
structure StepResult where
  result : Except SvcError IndustryNewsResponse
  state : ServiceState
  httpCalls : Nat
  summaryCalls : Nat

/-- The `try: ... except ...` block of `get_industry_news` (lines 70-104):
`_execute_request`, the parser, the article filter/validation, the summary
build and the cache write. Factored out of `get_industry_news` so each
branch can be analyzed in isolation. -/
def fetchAndStore (w : World) (st : ServiceState) (tWrite : Int) (slug : String)
    (config : IndustryAPIConfig) (api_key : Option String) : StepResult :=
  match execute_request w config api_key with
  | (.error (), n) => ⟨.error (.httpEx ⟨503, configIncompleteDetail config⟩), st, n, 0⟩
  | (.ok (.timeout msg), n) =>
    ⟨.error (.httpEx ⟨504, config.provider ++ " timed out: " ++ msg⟩), st, n, 0⟩
  | (.ok (.httpError msg), n) =>
    ⟨.error (.httpEx ⟨502, config.provider ++ " request failed: " ++ msg⟩), st, n, 0⟩
  | (.ok (.other msg), n) => ⟨.error (.pyErr msg), st, n, 0⟩
  | (.ok (.ok payload), n) =>
    match config.parserFn payload with
    | .error msg => ⟨.error (.pyErr msg), st, n, 0⟩
    | .ok articles_dicts =>
      match buildArticles articles_dicts with
      | .error msg => ⟨.error (.pyErr msg), st, n, 0⟩
      | .ok articles =>
        let summary := w.summarize config.industry config.provider articles
        let response : IndustryNewsResponse :=
          ⟨config.industry, config.slug, config.provider, articles, summary⟩
        ⟨.ok response,
         { st with cache := dictInsert st.cache slug ⟨tWrite, response⟩ }, n, 1⟩

/-- `IndustryNewsService.get_industry_news(slug, refresh_cache)`. `tRead` and
`tWrite` are the values of the two `time.time()` calls (cache-validity check
on line 58 and cache write on line 103). -/
def get_industry_news (w : World) (st : ServiceState) (tRead tWrite : Int)
    (slug : String) (refresh_cache : Bool) : StepResult :=
  match assocFind st.configs slug with
  | none => ⟨.error (.httpEx ⟨404, unknownSlugDetail st slug⟩), st, 0, 0⟩
  | some config =>
    match (if refresh_cache then none else freshEntry st tRead slug) with
    | some payload => ⟨.ok payload, st, 0, 0⟩
    | none =>
      let api_key : Option String :=
        if config.requires_api_key then w.env (config.api_key_env.getD "") else none
      if config.requires_api_key && !optStrTruthy api_key then
        ⟨.error (.httpEx ⟨503, missingKeyDetail config⟩), st, 0, 0⟩
      else
        fetchAndStore w st tWrite slug config api_key

/-- First slug of the requested list that `_get_config` rejects. -/
def firstUnknown (st : ServiceState) : List String → Option String
  | [] => none
  | s :: rest => if (assocFind st.configs s).isNone then some s else firstUnknown st rest

/-- Order-preserving first-occurrence deduplication (lines 130-137). -/
def dedupSeen (seen : List String) : List String → List String
  | [] => []
  | s :: rest => if s ∈ seen then dedupSeen seen rest else s :: dedupSeen (s :: seen) rest

/-- `# deduplicate while preserving order`. -/
def dedupFirst (slugs : List String) : List String := dedupSeen [] slugs

/-- `IndustryNewsService.resolve_slugs(requested)`. -/
def resolve_slugs (st : ServiceState) (requested : Option String) :
    Except HTTPException (List String) :=
  if !optStrTruthy requested then .ok (st.configs.map Prod.fst)
  else
    let slugs := ((pySplitComma (requested.getD "")).map pyStrip).filter
      (fun s => !s.isEmpty)
    if slugs.isEmpty then .error ⟨400, "No valid industries were provided."⟩
    else
      match firstUnknown st slugs with
      | some bad => .error ⟨404, unknownSlugDetail st bad⟩
      | none => .ok (dedupFirst slugs)

/-- `IndustryInfo` (`backend/api/news/models.py`). -/
structure IndustryInfo where
  slug : String
  industry : String
  provider : String
  requires_api_key : Bool
  api_key_env : Option String
  is_configured : Bool

/-- `IndustryNewsService.list_industries` (reads only the env oracle). -/
def list_industries (w : World) (st : ServiceState) : List IndustryInfo :=
  st.configs.map fun kv =>
    let config := kv.snd
    let api_key_present :=
      if optStrTruthy config.api_key_env then optStrTruthy (w.env (config.api_key_env.getD ""))
      else true
    { slug := config.slug, industry := config.industry, provider := config.provider,
      requires_api_key := config.requires_api_key, api_key_env := config.api_key_env,
      is_configured := api_key_present }

end Qtma

namespace Qtma

/-! ### Provider registry and bulk endpoint (`backend/api/news/news.py`) -/

/-- `INDUSTRY_CONFIGS` (`backend/api/news/news.py` lines 38-127); the
`params_builder` lambdas only shape the outbound request and are absorbed by
the `World.fetch` oracle. -/
def INDUSTRY_CONFIGS : List IndustryAPIConfig := [
  { slug := "technology", industry := "Technology", provider := "GNews",
    endpoint := "https://gnews.io/api/v4/top-headlines",
    api_key_env := some "GNEWS_API_KEY", parserFn := parse_gnews },
  { slug := "finance", industry := "Finance", provider := "Alpha Vantage",
    endpoint := "https://www.alphavantage.co/query",
    api_key_env := some "ALPHAVANTAGE_API_KEY", parserFn := parse_alphavantage },
  { slug := "healthcare", industry := "Healthcare", provider := "NewsData.io",
    endpoint := "https://newsdata.io/api/1/news",
    api_key_env := some "NEWSDATA_API_KEY", parserFn := parse_newsdata },
  { slug := "energy", industry := "Energy", provider := "GDELT Project",
    endpoint := "https://api.gdeltproject.org/api/v2/doc/doc",
    requires_api_key := false, parserFn := parse_gdelt },
  { slug := "retail", industry := "Retail", provider := "The Guardian Open Platform",
    endpoint := "https://content.guardianapis.com/search",
    api_key_env := some "GUARDIAN_API_KEY", parserFn := parse_guardian },
  { slug := "transportation", industry := "Transportation", provider := "NewsAPI.org",
    endpoint := "https://newsapi.org/v2/everything",
    api_key_env := some "NEWSAPI_KEY", parserFn := parse_newsapi }]

/-- The module-level `news_service = IndustryNewsService(INDUSTRY_CONFIGS, summary_builder)`
right after construction. -/
def newsServiceState : ServiceState := initState INDUSTRY_CONFIGS 300

/-- One element of the bulk endpoint's `errors` array:
`{"slug": ..., "status_code": ..., "detail": ...}`. -/
structure SlugError where
  slug : String
  status_code : Nat
  detail : String
deriving DecidableEq

/-- `errors.append(...)` entry for one failed task: an `HTTPException` keeps
its status code and detail, any other exception becomes a 500 with `str(result)`. -/
def slugError (slug : String) (e : SvcError) : SlugError :=
  match e with
  | .httpEx ex => ⟨slug, ex.status_code, ex.detail⟩
  | .pyErr msg => ⟨slug, 500, msg⟩

/-- `BulkIndustryNewsResponse` (`backend/api/news/models.py`). -/
structure BulkIndustryNewsResponse where
  results : List IndustryNewsResponse
  errors : List SlugError

/-- The `for slug, result in zip(slugs, responses)` loop (lines 317-329):
successes go to `results`, failures to `errors`, in resolved-slug order. -/
def aggregateResponses :
    List (String × Except SvcError IndustryNewsResponse) →
    List IndustryNewsResponse × List SlugError
  | [] => ([], [])
  | (slug, r) :: rest =>
    let (results, errors) := aggregateResponses rest
    match r with
    | .ok response => (response :: results, errors)
    | .error e => (results, slugError slug e :: errors)

/-- How `fetch_multiple_industries` can fail: an `HTTPException` raised by
`resolve_slugs`, or the final 503 whose detail carries the full error list. -/
inductive BulkError where
  | httpEx (e : HTTPException)
  | allFailed (errors : List SlugError)

/-- `fetch_multiple_industries` (`backend/api/news/news.py` lines 291-337),
with the per-slug `asyncio.gather(..., return_exceptions=True)` outcomes
abstracted as the pure map `outcomes` (each deduplicated slug is fetched
exactly once; rate limiting is outside this model). -/
def fetch_multiple_industries (st : ServiceState)
    (outcomes : String → Except SvcError IndustryNewsResponse)
    (industries : Option String) : Except BulkError BulkIndustryNewsResponse :=
  match resolve_slugs st industries with
  | .error e => .error (.httpEx e)
  | .ok slugs =>
    let (results, errors) := aggregateResponses (slugs.map (fun s => (s, outcomes s)))
    if results.isEmpty && !errors.isEmpty then .error (.allFailed errors)
    else .ok ⟨results, errors⟩

end Qtma

namespace Qtma

/-! ### Memory batch endpoint (`backend/api/memory.py`) -/

/-- One raw item of the request body for `POST /api/memory`. `none` means
the key is absent; for `importance`, `some none` is an explicit JSON `null`. -/
structure MemoryItemInput where
  memory : Option String
  source : Option String
  importance : Option (Option Int)

/-- A validated pydantic `MemoryItem`. -/
structure MemoryItem where
  memory : String
  source : String
  importance : Option Int
deriving DecidableEq

/-- `memory: constr(strip_whitespace=True, min_length=1, max_length=500)`:
strip, then check the length bounds. -/
def validateMemory : Option String → Except String String
  | none => .error "memory: field required"
  | some s =>
    if (pyStrip s).length < 1 || (pyStrip s).length > 500 then
      .error "memory: length out of range"
    else .ok (pyStrip s)

/-- `source: constr(strip_whitespace=True, min_length=1, max_length=100) = "unspecified"`:
the declared default is used when the key is absent. -/
def validateSource : Option String → Except String String
  | none => .ok "unspecified"
  | some s =>
    if (pyStrip s).length < 1 || (pyStrip s).length > 100 then
      .error "source: length out of range"
    else .ok (pyStrip s)

/-- `importance: Optional[conint(ge=1, le=5)] = 3`: values outside 1..5 are
rejected, not clamped; an absent key gets the declared default 3; an
explicit JSON `null` is accepted as `None` by the `Optional`. -/
def validateImportance : Option (Option Int) → Except String (Option Int)
  | none => .ok (some 3)
  | some none => .ok none
  | some (some n) =>
    if n < 1 || n > 5 then .error "importance: out of range" else .ok (some n)

/-- Pydantic validation of one `MemoryItem`, field by field. -/
def validateMemoryItem (inp : MemoryItemInput) : Except String MemoryItem :=
  match validateMemory inp.memory with
  | .error m => .error m
  | .ok memory =>
    match validateSource inp.source with
    | .error m => .error m
    | .ok source =>
      match validateImportance inp.importance with
      | .error m => .error m
      | .ok importance => .ok ⟨memory, source, importance⟩

/-- A row handed to `admin.table("user_memories").insert(rows)`. -/
structure MemoryRow where
  user_id : String
  memory : String
  source : String
  importance : Int
deriving DecidableEq

/-- Pydantic validation of the whole `memories` list, item by item in order
(the first invalid item makes the request fail with a validation error). -/
def validateItems : List MemoryItemInput → Except String (List MemoryItem)
  | [] => .ok []
  | inp :: rest =>
    match validateMemoryItem inp, validateItems rest with
    | .error m, _ => .error m
    | .ok item, .ok items => .ok (item :: items)
    | .ok _, .error m => .error m

/-- How `add_memories` can fail: a pydantic request-validation error (FastAPI
answers 422 before the endpoint body runs) or a raised `HTTPException`. -/
inductive AddMemoriesError where
  | validationError (msg : String)
  | httpEx (e : HTTPException)
deriving DecidableEq

/-- `add_memories` (`backend/api/memory.py` lines 91-122): body validation,
the admin-client guard, the size-0/size->5 guards, then the rows the insert
call receives (the row store echoes them back, so `inserted` equals the row
count). -/
def add_memories (adminAvailable : Bool) (user_id : String)
    (payload : List MemoryItemInput) : Except AddMemoriesError (List MemoryRow) :=
  match validateItems payload with
  | .error m => .error (.validationError m)
  | .ok items =>
    if !adminAvailable then .error (.httpEx ⟨500, "Admin client not available"⟩)
    else if items.length = 0 then .error (.httpEx ⟨400, "No memories provided"⟩)
    else if items.length > 5 then .error (.httpEx ⟨400, "Maximum 5 memories per request"⟩)
    else .ok (items.map fun mem =>
      ⟨user_id, pyStrip mem.memory, pyStrip mem.source, intOptPyOr mem.importance 3⟩)

end Qtma

namespace Qtma

/-! ### Prompt context assembler (`backend/services/prompt_context.py`,
formatters from `backend/api/memory.py` and `backend/api/onboarding.py`) -/

/-- A row of the `onboarding_context` table (a Python dict). -/
abbrev OnbRecord := List (String × Json)

/-- A row of the `user_memories` table as read back by the context builders
(columns are typed: text, text-or-null, int-or-null). -/
structure MemRecord where
  memory : String
  source : Option String
  importance : Option Int

/-- A stored news-hook record as consumed by `build_news_prompt_section`. -/
structure NewsRecord where
  industry : Option String
  industry_slug : Option String
  summary : Option String

/-- One Qdrant search hit `{score, payload}`; the score is a real number
(Python float) modelled as a rational, the payload a string-valued map. -/
structure VecHit where
  score : Rat
  payload : List (String × String)

/-- Python `x or default` for an optional string (both `None` and `""` are
falsy). -/
def pyOrStr (x : Option String) (d : String) : String :=
  match x with
  | some s => if s.isEmpty then d else s
  | none => d

/-- How Python's f-string renders a JSON scalar (`str(value)`). Lists and
dicts render via `repr`, which this model does not spell out — the
onboarding columns hold text, so those branches are unreachable for real
rows. -/
def jsonToDisplay : Json → String
  | .null => "None"
  | .str s => s
  | .num n => toString n
  | .bool true => "True"
  | .bool false => "False"
  | .arr _ => "<list>"
  | .obj _ => "<dict>"

/-- `record.get(key)` on an onboarding row. -/
def onbGet (r : OnbRecord) (k : String) : Json := (assocFind r k).getD .null

/-- `record.get(key) or "default"`, rendered for the f-string. -/
def onbField (r : OnbRecord) (k : String) (dflt : String) : String :=
  let v := onbGet r k
  if v.truthy then jsonToDisplay v else dflt

/-- `format_value` in `build_onboarding_prompt_context`: lists are joined
with `", "` keeping truthy entries (real rows hold lists of strings); other
values fall back to `"Not provided"` when falsy. -/
def format_value (v : Json) : String :=
  match v with
  | .arr items =>
    if !items.isEmpty then String.intercalate ", " ((items.filter Json.truthy).map jsonToDisplay)
    else "Not provided"
  | _ => if v.truthy then jsonToDisplay v else "Not provided"

/-- `build_onboarding_prompt_context` (`backend/api/onboarding.py` lines
38-70): the dedented, stripped f-string, line by line. -/
def build_onboarding_prompt_context (r : OnbRecord) : String :=
  let name := onbField r "name" "Unknown user"
  let company := onbField r "company" "Unknown company"
  let role := onbField r "role" "Unknown role"
  let email := onbField r "email" "No email provided"
  let industry := onbField r "industry" "No industry provided"
  let mission := onbField r "company_mission" "No mission provided"
  let audience := onbField r "target_audience" "No audience provided"
  let topics := onbField r "topics_to_post" "No topics provided"
  let goals := format_value (onbGet r "selected_goals")
  let hooks := format_value (onbGet r "selected_hooks")
  String.intercalate "\n" [
    "Onboarding context: Personalization data captured during signup. Use it to shape tone, examples, and relevance.",
    "Who they are: " ++ name ++ " — " ++ role ++ " at " ++ company ++ " (" ++ industry ++ "). Contact: " ++ email ++ ".",
    "Company mission: " ++ mission,
    "Target audience: " ++ audience,
    "Topics to post about: " ++ topics,
    "Goals they care about: " ++ goals,
    "Hooks/formats they like: " ++ hooks]

/-- `build_memory_prompt_section` (`backend/api/memory.py` lines 37-51). -/
def build_memory_prompt_section (memories : List MemRecord) : String :=
  if memories.isEmpty then "No stored memories yet."
  else
    let lines := memories.filterMap fun item =>
      let memory := pyStrip item.memory
      let source := pyOrStr item.source "unspecified"
      let suffix := " (source: " ++ source ++
        (match item.importance with
         | some i => if i = 0 then "" else ", importance: " ++ toString i
         | none => "") ++ ")"
      if memory.isEmpty then none else some ("- " ++ memory ++ suffix)
    "User memory (keep this in mind):\n" ++ String.intercalate "\n" lines

/-- `build_news_prompt_section` (`backend/api/memory.py` lines 54-64). -/
def build_news_prompt_section (news_items : List NewsRecord) : String :=
  if news_items.isEmpty then "No recent news context available."
  else
    let lines := news_items.map fun item =>
      let industry := pyOrStr item.industry (pyOrStr item.industry_slug "News")
      let summary := pyOrStr item.summary ""
      "- " ++ industry ++ ": " ++ summary
    "Recent news context:\n" ++ String.intercalate "\n" lines

/-- `f"{score:.4f}"`: fixed four decimal places (the exact round-half-even
behaviour of binary floats is approximated by rational rounding). -/
def fmt4 (q : Rat) : String :=
  let n : Int := (q * 10000 + 1 / 2).floor
  let a := n.natAbs
  let frac := toString (a % 10000)
  let pad := String.mk (List.replicate (4 - frac.length) (Char.ofNat 48))
  (if n < 0 then "-" else "") ++ toString (a / 10000) ++ "." ++ pad ++ frac

/-- The vector-match section built on lines 99-105 of `prompt_context.py`. -/
def vectorSection (hits : List VecHit) : String :=
  "Vector search matches:\n" ++ String.intercalate "\n" (hits.map fun hit =>
    let content := pyOrStr (assocFind hit.payload "content") ""
    let snippet := content.take 500 ++ (if content.length > 500 then "..." else "")
    "- score " ++ fmt4 hit.score ++ ": " ++ snippet)

/-- The bundle returned by `build_prompt_context`. -/
structure PromptContextBundle where
  prompt_context : String
  onboarding : Option OnbRecord
  memories : List MemRecord
  news : List NewsRecord
  vector_matches : List VecHit

/-- Oracle for one `build_prompt_context` call: the outcome of each upstream
read (`.error` = that call raised), plus whether the optional Qdrant client
was successfully constructed in `__init__`. -/
structure CtxWorld where
  onboardingRead : Except String (List OnbRecord)
  memoriesRead : Nat → Except String (List MemRecord)
  newsHooksRead : Except String (List NewsRecord)
  vectorSearch : Nat → Except String (List VecHit)
  qdrantConfigured : Bool

/-- `PromptContextService.build_prompt_context` (`prompt_context.py` lines
52-115). The onboarding and memory reads are *not* wrapped in `try`, so
their failures propagate; the news-hook read and the vector search are each
wrapped and degrade to an empty list. -/
def build_prompt_context (w : CtxWorld) (user_id : String) (query : Option String)
    (memory_limit news_limit search_top_k : Nat) : Except String PromptContextBundle := do
  let _ := user_id
  let onbRows ← w.onboardingRead
  let onboarding_record := onbRows.head?
  let memories ← w.memoriesRead memory_limit
  let news_items : List NewsRecord :=
    if news_limit > 0 then
      match w.newsHooksRead with
      | .ok items => items.take news_limit
      | .error _ => []
    else []
  let vector_matches : List VecHit :=
    if optStrTruthy query && w.qdrantConfigured then
      match w.vectorSearch search_top_k with
      | .ok hits => hits
      | .error _ => []
    else []
  let sections : List String :=
    [match onboarding_record with
     | some r => build_onboarding_prompt_context r
     | none => "Onboarding context: none found for this user."] ++
    [build_memory_prompt_section memories] ++
    (if news_limit > 0 then [build_news_prompt_section news_items] else []) ++
    (if !vector_matches.isEmpty then [vectorSection vector_matches] else [])
  let prompt_context :=
    if sections.isEmpty then "" else pyStrip (String.intercalate "\n\n" sections)
  .ok { prompt_context :=
          if prompt_context.isEmpty then "No personalization context available."
          else prompt_context,
        onboarding := onboarding_record, memories := memories, news := news_items,
        vector_matches := vector_matches }

end Qtma



namespace Qtma

/-! ### Shared lemmas about the service state machine -/

theorem assocFind_dictInsert {α : Type} (m : List (String × α)) (k : String) (v : α)
    (s : String) :
    assocFind (dictInsert m k v) s = if s = k then some v else assocFind m s := by
  induction m with
  | nil =>
    by_cases h : s = k
    · subst h; simp [dictInsert, assocFind]
    · simp [dictInsert, assocFind, h, show ¬(k = s) from fun hh => h hh.symm]
  | cons kv rest ih =>
    obtain ⟨k1, v1⟩ := kv
    by_cases hk : k1 = k
    · subst hk
      by_cases hs : s = k1
      · subst hs; simp [dictInsert, assocFind]
      · simp [dictInsert, assocFind, hs, show ¬(k1 = s) from fun hh => hs hh.symm]
    · by_cases hs : k1 = s
      · subst hs
        simp [dictInsert, assocFind, hk]
      · simp [dictInsert, assocFind, hk, hs, ih]

/-- Branch analysis of the post-cache fetch path: it either fails leaving the
state untouched (at most one HTTP request, no summary call), or succeeds with
exactly one HTTP request and one summary call, writing a response whose
identity fields are copied from the config into the cache under `slug`. -/
theorem fetchAndStore_cases (w : World) (st : ServiceState) (tW : Int)
    (slug : String) (config : IndustryAPIConfig) (api_key : Option String) :
    (∃ e n, n ≤ 1 ∧ fetchAndStore w st tW slug config api_key = ⟨.error e, st, n, 0⟩) ∨
    (∃ resp, resp.industry = config.industry ∧ resp.slug = config.slug ∧
      resp.provider = config.provider ∧
      fetchAndStore w st tW slug config api_key =
        ⟨.ok resp, { st with cache := dictInsert st.cache slug ⟨tW, resp⟩ }, 1, 1⟩) := by
  unfold fetchAndStore execute_request
  by_cases hkey : (config.requires_api_key && !optStrTruthy api_key) = true
  · rw [if_pos hkey]
    exact Or.inl ⟨_, 0, Nat.zero_le 1, rfl⟩
  · rw [if_neg hkey]
    split <;> rename_i heq <;> injection heq with hfetch hn <;> subst hn <;>
      first
        | exact Or.inl ⟨_, 1, Nat.le_refl 1, rfl⟩
        | (split <;>
            first
              | exact Or.inl ⟨_, 1, Nat.le_refl 1, rfl⟩
              | (split <;>
                  first
                    | exact Or.inl ⟨_, 1, Nat.le_refl 1, rfl⟩
                    | exact Or.inr ⟨_, rfl, rfl, rfl, rfl⟩))

/-- Exhaustive branch analysis of one `get_industry_news` call. -/
theorem get_industry_news_cases (w : World) (st : ServiceState) (tR tW : Int)
    (slug : String) (rc : Bool) :
    (∃ e n, n ≤ 1 ∧
      get_industry_news w st tR tW slug rc = ⟨.error e, st, n, 0⟩) ∨
    (∃ p, get_industry_news w st tR tW slug rc = ⟨.ok p, st, 0, 0⟩) ∨
    (∃ resp config, assocFind st.configs slug = some config ∧
      resp.industry = config.industry ∧ resp.slug = config.slug ∧
      resp.provider = config.provider ∧
      get_industry_news w st tR tW slug rc =
        ⟨.ok resp, { st with cache := dictInsert st.cache slug ⟨tW, resp⟩ }, 1, 1⟩) := by
  unfold get_industry_news
  cases hc : assocFind st.configs slug with
  | none => exact Or.inl ⟨_, 0, Nat.zero_le 1, rfl⟩
  | some config =>
    cases hf : (if rc then none else freshEntry st tR slug) with
    | some payload => exact Or.inr (Or.inl ⟨payload, rfl⟩)
    | none =>
      dsimp only
      by_cases hkey : (config.requires_api_key &&
          !optStrTruthy (if config.requires_api_key
            then w.env (config.api_key_env.getD "") else none)) = true
      · rw [if_pos hkey]
        exact Or.inl ⟨_, 0, Nat.zero_le 1, rfl⟩
      · rw [if_neg hkey]
        rcases fetchAndStore_cases w st tW slug config
            (if config.requires_api_key then w.env (config.api_key_env.getD "") else none) with
          ⟨e, n, hn, heq⟩ | ⟨resp, h1, h2, h3, heq⟩
        · rw [heq]; exact Or.inl ⟨e, n, hn, rfl⟩
        · rw [heq]; exact Or.inr (Or.inr ⟨resp, config, rfl, h1, h2, h3, rfl⟩)

end Qtma


namespace Qtma

/-- With `refresh_cache = false`, a registered slug and a cache entry within
the TTL, the call is answered entirely from the cache. -/
theorem get_industry_news_fresh_hit (w : World) (st : ServiceState) (tR tW : Int)
    (slug : String) (config : IndustryAPIConfig) (entry : CacheEntry)
    (hc : assocFind st.configs slug = some config)
    (he : assocFind st.cache slug = some entry)
    (ht : tR - entry.timestamp ≤ st.cache_ttl) :
    get_industry_news w st tR tW slug false = ⟨.ok entry.payload, st, 0, 0⟩ := by
  simp [get_industry_news, freshEntry, hc, he, ht]

theorem get_industry_news_httpCalls_le_one (w : World) (st : ServiceState)
    (tR tW : Int) (slug : String) (rc : Bool) :
    (get_industry_news w st tR tW slug rc).httpCalls ≤ 1 := by
  rcases get_industry_news_cases w st tR tW slug rc with
      ⟨e, n, hn, heq⟩ | ⟨p, heq⟩ | ⟨resp, config, hc, h1, h2, h3, heq⟩ <;>
    rw [heq] <;> first | exact hn | exact Nat.zero_le 1

/-- When the API-key precondition holds, the fetch path performs exactly one
outbound HTTP request. -/
theorem fetchAndStore_httpCalls_eq_one (w : World) (st : ServiceState) (tW : Int)
    (slug : String) (config : IndustryAPIConfig) (api_key : Option String)
    (hkey : (config.requires_api_key && !optStrTruthy api_key) = false) :
    (fetchAndStore w st tW slug config api_key).httpCalls = 1 := by
  have hkey2 : ¬((config.requires_api_key && !optStrTruthy api_key) = true) := by
    simp [hkey]
  unfold fetchAndStore execute_request
  rw [if_neg hkey2]
  split <;> rename_i heq <;> injection heq with hfetch hn <;> subst hn <;>
    first
      | rfl
      | (split <;> first | rfl | (split <;> rfl))

/-- With `refresh_cache = true` and a registered slug whose API-key
precondition holds, the cache probe is skipped and control reaches the fetch
path directly. -/
theorem get_industry_news_refresh_eq (w : World) (st : ServiceState) (tR tW : Int)
    (slug : String) (config : IndustryAPIConfig)
    (hc : assocFind st.configs slug = some config)
    (hkey : (config.requires_api_key && !optStrTruthy
      (if config.requires_api_key then w.env (config.api_key_env.getD "") else none)) = false) :
    get_industry_news w st tR tW slug true =
      fetchAndStore w st tW slug config
        (if config.requires_api_key then w.env (config.api_key_env.getD "") else none) := by
  have hkey2 : ¬((config.requires_api_key && !optStrTruthy
      (if config.requires_api_key then w.env (config.api_key_env.getD "") else none)) = true) := by
    simp only [hkey]
    exact Bool.false_ne_true
  simp only [get_industry_news, hc, reduceIte]
  rw [if_neg hkey2]

end Qtma

namespace Qtma

/-! ### Concrete fixtures used by witnesses -/

/-- A world in which every env var is set, every fetch returns an empty JSON
object and the summarizer returns `"S"`. -/
def wOk : World :=
  { env := fun _ => some "KEY", fetch := fun _ _ => .ok (.obj []),
    summarize := fun _ _ _ => "S" }

/-- A world in which every outbound request times out. -/
def wTimeout : World :=
  { env := fun _ => some "KEY", fetch := fun _ _ => .timeout "t",
    summarize := fun _ _ _ => "S" }

/-- The `technology` entry of `INDUSTRY_CONFIGS`. -/
def cfgTech : IndustryAPIConfig :=
  { slug := "technology", industry := "Technology", provider := "GNews",
    endpoint := "https://gnews.io/api/v4/top-headlines",
    api_key_env := some "GNEWS_API_KEY", parserFn := parse_gnews }

/-- The response `wOk` produces for the `technology` slug. -/
def respTech : IndustryNewsResponse := ⟨"Technology", "technology", "GNews", [], "S"⟩

/-- The service state with one cached `technology` entry written at time 100. -/
def stWithCache : ServiceState :=
  { newsServiceState with cache := [("technology", ⟨100, respTech⟩)] }

/-! ### C1 — cache TTL semantics -/

/-- C1: with `refresh_cache = false` and a cache entry within the TTL,
`get_industry_news` returns the cached payload with no HTTP request and no
summarizer call and leaves the state unchanged; hence a call that succeeded
followed by a second non-refresh call within the TTL of its write issue at
most one HTTP request between them; with `refresh_cache = true` (and the
API-key precondition met) the call always fetches regardless of the cache
state and, on success, overwrites the entry for the slug. -/
theorem claim1_cache_ttl_semantics :
    (∀ (w : World) (st : ServiceState) (tR tW : Int) (slug : String)
       (config : IndustryAPIConfig) (entry : CacheEntry),
       assocFind st.configs slug = some config →
       assocFind st.cache slug = some entry →
       tR - entry.timestamp ≤ st.cache_ttl →
       get_industry_news w st tR tW slug false = ⟨.ok entry.payload, st, 0, 0⟩) ∧
    (∀ (w : World) (st : ServiceState) (t1R t1W t2R t2W : Int) (slug : String)
       (r : IndustryNewsResponse),
       (get_industry_news w st t1R t1W slug false).result = .ok r →
       t2R - t1W ≤ st.cache_ttl →
       (get_industry_news w st t1R t1W slug false).httpCalls +
         (get_industry_news w (get_industry_news w st t1R t1W slug false).state
           t2R t2W slug false).httpCalls ≤ 1) ∧
    (∀ (w : World) (st : ServiceState) (tR tW : Int) (slug : String)
       (config : IndustryAPIConfig),
       assocFind st.configs slug = some config →
       (config.requires_api_key = false ∨
         optStrTruthy (w.env (config.api_key_env.getD "")) = true) →
       (get_industry_news w st tR tW slug true).httpCalls = 1 ∧
       ∀ resp, (get_industry_news w st tR tW slug true).result = .ok resp →
         assocFind (get_industry_news w st tR tW slug true).state.cache slug =
           some ⟨tW, resp⟩) := by
  refine ⟨?_, ?_, ?_⟩
  · intro w st tR tW slug config entry hc he ht
    exact get_industry_news_fresh_hit w st tR tW slug config entry hc he ht
  · intro w st t1R t1W t2R t2W slug r hok httl
    rcases get_industry_news_cases w st t1R t1W slug false with
      ⟨e, n, hn, heq⟩ | ⟨p, heq⟩ | ⟨resp, config, hc, h1, h2, h3, heq⟩
    · rw [heq] at hok; exact absurd hok (by simp)
    · rw [heq]
      simpa using get_industry_news_httpCalls_le_one w st t2R t2W slug false
    · rw [heq]
      have he2 : assocFind (dictInsert st.cache slug ⟨t1W, resp⟩) slug =
          some ⟨t1W, resp⟩ := by
        rw [assocFind_dictInsert]; exact if_pos rfl
      rw [get_industry_news_fresh_hit w
        ⟨st.configs, dictInsert st.cache slug ⟨t1W, resp⟩, st.cache_ttl⟩
        t2R t2W slug config ⟨t1W, resp⟩ hc he2 httl]
      simp
  · intro w st tR tW slug config hc hdisj
    have hkey : (config.requires_api_key && !optStrTruthy
        (if config.requires_api_key then w.env (config.api_key_env.getD "")
         else none)) = false := by
      rcases hdisj with hreq | henv
      · simp [hreq]
      · cases hreqb : config.requires_api_key <;> simp [hreqb, henv]
    have heq := get_industry_news_refresh_eq w st tR tW slug config hc hkey
    constructor
    · rw [heq]
      exact fetchAndStore_httpCalls_eq_one w st tW slug config _ hkey
    · intro resp hok
      rw [heq] at hok ⊢
      rcases fetchAndStore_cases w st tW slug config
          (if config.requires_api_key then w.env (config.api_key_env.getD "")
           else none) with ⟨e, n, hn, heq2⟩ | ⟨resp2, g1, g2, g3, heq2⟩
      · rw [heq2] at hok; exact absurd hok (by simp)
      · rw [heq2] at hok ⊢
        have : resp2 = resp := by
          simpa using hok
        subst this
        rw [assocFind_dictInsert]; exact if_pos rfl

/-- Witness for C1 at the real registry: a fresh-hit read of the cached
`technology` entry, a fetch-then-read pair, and a forced refresh. -/
theorem claim1_cache_ttl_semantics_witness :
    get_industry_news wOk stWithCache 200 201 "technology" false =
      ⟨.ok respTech, stWithCache, 0, 0⟩ ∧
    (get_industry_news wOk newsServiceState 0 1 "technology" false).httpCalls +
      (get_industry_news wOk
        (get_industry_news wOk newsServiceState 0 1 "technology" false).state
        2 3 "technology" false).httpCalls ≤ 1 ∧
    (get_industry_news wOk stWithCache 200 201 "technology" true).httpCalls = 1 :=
  ⟨claim1_cache_ttl_semantics.1 wOk stWithCache 200 201 "technology" cfgTech
      ⟨100, respTech⟩ rfl rfl (by decide),
   claim1_cache_ttl_semantics.2.1 wOk newsServiceState 0 1 2 3 "technology"
      respTech rfl (by decide),
   (claim1_cache_ttl_semantics.2.2 wOk stWithCache 200 201 "technology" cfgTech
      rfl (Or.inr rfl)).1⟩

end Qtma

namespace Qtma

/-! ### C2 — per-slug atomicity of `get_industry_news` -/

/-- C2: whenever `get_industry_news` fails — for any world, i.e. any failure
mode (missing API key, timeout, HTTP error, parse error, ...) — the service
state (and hence the cache entry of the slug) is exactly what it was before
the call, and the old payload of any existing entry is not returned as the
result of the failed read. -/
theorem claim2_failure_leaves_cache_unchanged :
    ∀ (w : World) (st : ServiceState) (tR tW : Int) (slug : String) (rc : Bool)
      (e : SvcError),
      (get_industry_news w st tR tW slug rc).result = .error e →
      (get_industry_news w st tR tW slug rc).state = st ∧
      ∀ entry, assocFind st.cache slug = some entry →
        (get_industry_news w st tR tW slug rc).result ≠ .ok entry.payload := by
  intro w st tR tW slug rc e herr
  refine ⟨?_, fun entry _ => by rw [herr]; simp⟩
  rcases get_industry_news_cases w st tR tW slug rc with
    ⟨e2, n, hn, heq⟩ | ⟨p, heq⟩ | ⟨resp, config, hc, h1, h2, h3, heq⟩
  · rw [heq]
  · rw [heq] at herr; exact absurd herr (by simp)
  · rw [heq] at herr; exact absurd herr (by simp)

/-- Witness for C2: a timed-out fetch of the `technology` slug (stale entry
present, written at time 100, read at time 600) leaves the state unchanged. -/
theorem claim2_failure_leaves_cache_unchanged_witness :
    (get_industry_news wTimeout stWithCache 600 601 "technology" false).state =
      stWithCache :=
  (claim2_failure_leaves_cache_unchanged wTimeout stWithCache 600 601 "technology"
    false (.httpEx ⟨504, "GNews timed out: t"⟩) rfl).1

/-! ### C10 — cache/config consistency invariant -/

/-- Every cache key is a registered slug and the payload stored under it
carries the identity fields of that slug's registered config. -/
def cacheInvariant (st : ServiceState) : Prop :=
  ∀ slug entry, assocFind st.cache slug = some entry →
    ∃ config, assocFind st.configs slug = some config ∧
      entry.payload.slug = config.slug ∧
      entry.payload.industry = config.industry ∧
      entry.payload.provider = config.provider

/-- The public operations of `IndustryNewsService`. -/
inductive ServiceOp where
  | listIndustriesOp
  | resolveSlugsOp (requested : Option String)
  | getNewsOp (tR tW : Int) (slug : String) (refresh_cache : Bool)

/-- State transformer of each operation: `list_industries` and
`resolve_slugs` never assign to `self._cache` or `self._configs` (their Lean
translations do not even take the state mutably), so they leave the state as
is; `get_industry_news` may write the cache. -/
def runOp (w : World) (st : ServiceState) : ServiceOp → ServiceState
  | .listIndustriesOp => st
  | .resolveSlugsOp _ => st
  | .getNewsOp tR tW slug rc => (get_industry_news w st tR tW slug rc).state

/-- C10: the invariant holds for a freshly constructed service and is
preserved by every public operation, succeeding or failing. -/
theorem claim10_cache_config_invariant :
    (∀ (configs : List IndustryAPIConfig) (ttl : Int),
      cacheInvariant (initState configs ttl)) ∧
    ∀ (w : World) (st : ServiceState) (op : ServiceOp),
      cacheInvariant st → cacheInvariant (runOp w st op) := by
  constructor
  · intro configs ttl slug entry h
    exact absurd h (by simp [initState, assocFind])
  · intro w st op hinv
    cases op with
    | listIndustriesOp => exact hinv
    | resolveSlugsOp requested => exact hinv
    | getNewsOp tR tW slug rc =>
      rcases get_industry_news_cases w st tR tW slug rc with
        ⟨e, n, hn, heq⟩ | ⟨p, heq⟩ | ⟨resp, config, hc, h1, h2, h3, heq⟩ <;>
          simp only [runOp, heq]
      · exact hinv
      · exact hinv
      · intro s2 entry2 hfind
        rw [assocFind_dictInsert] at hfind
        by_cases hs : s2 = slug
        · subst hs
          rw [if_pos rfl] at hfind
          cases hfind
          exact ⟨config, hc, h2, h1, h3⟩
        · rw [if_neg hs] at hfind
          exact hinv s2 entry2 hfind

/-- Witness for C10: one successful fetch starting from the freshly built
real service state keeps the invariant. -/
theorem claim10_cache_config_invariant_witness :
    cacheInvariant (runOp wOk newsServiceState
      (.getNewsOp 0 1 "technology" false)) :=
  claim10_cache_config_invariant.2 wOk newsServiceState
    (.getNewsOp 0 1 "technology" false)
    (claim10_cache_config_invariant.1 INDUSTRY_CONFIGS 300)

end Qtma

namespace Qtma

/-! ### C4 — summary builder behaviour -/

/-- An article fixture with a non-empty title. -/
def artA : Article := ⟨"Big launch", none, "https://example.com/a", none, none⟩

/-- C4 (code bug exhibited): `_call_llm` checks `if not content:` *before*
stripping, so whitespace-only LLM output passes the guard and
`content.strip()` makes `build_summary` return the empty string — not the
deterministic fallback the guard was written to provide (and which truly
empty output does receive, as the second and third conjuncts show). The
fourth conjunct shows the empty-article path. -/
theorem claim4_build_summary_whitespace_bug :
    build_summary ⟨true, .ok (some "   ")⟩ "Technology" "GNews" [artA] = "" ∧
    build_summary ⟨true, .ok (some "")⟩ "Technology" "GNews" [artA] =
      "Technology snapshot: Big launch" ∧
    build_summary ⟨true, .error "RateLimitError"⟩ "Technology" "GNews" [artA] =
      "Technology snapshot: Big launch" ∧
    build_summary ⟨false, .ok none⟩ "Technology" "GNews" [] =
      "No recent technology headlines are available." := by
  refine ⟨?_, ?_, ?_, ?_⟩ <;> decide

end Qtma

namespace Qtma

/-! ### C8 — memory batch endpoint -/

theorem validateItems_ok_length :
    ∀ (l : List MemoryItemInput) (items : List MemoryItem),
      validateItems l = .ok items → items.length = l.length := by
  intro l
  induction l with
  | nil => intro items h; cases h; rfl
  | cons inp rest ih =>
    intro items h
    unfold validateItems at h
    cases hv : validateMemoryItem inp <;> rw [hv] at h
    · exact absurd h (by simp)
    · cases hr : validateItems rest <;> rw [hr] at h
      · exact absurd h (by simp)
      · cases h
        simp [ih _ hr]

theorem validateItems_ok_mem :
    ∀ (l : List MemoryItemInput) (items : List MemoryItem),
      validateItems l = .ok items →
      ∀ item ∈ items, ∃ inp ∈ l, validateMemoryItem inp = .ok item := by
  intro l
  induction l with
  | nil => intro items h; cases h; intro item hmem; exact absurd hmem (by simp)
  | cons inp rest ih =>
    intro items h
    unfold validateItems at h
    cases hv : validateMemoryItem inp <;> rw [hv] at h
    · exact absurd h (by simp)
    · cases hr : validateItems rest <;> rw [hr] at h
      · exact absurd h (by simp)
      · cases h
        intro item hmem
        rcases List.mem_cons.mp hmem with heq | htail
        · exact ⟨inp, List.mem_cons_self inp rest, heq ▸ hv⟩
        · rcases ih _ hr item htail with ⟨inp2, hmem2, hok2⟩
          exact ⟨inp2, List.mem_cons_of_mem inp hmem2, hok2⟩

theorem validateMemory_ok (om : Option String) (m : String)
    (h : validateMemory om = .ok m) :
    1 ≤ m.length ∧ m.length ≤ 500 ∧ ∀ s, om = some s → m = pyStrip s := by
  cases om with
  | none => exact absurd h (by simp [validateMemory])
  | some s =>
    simp only [validateMemory] at h
    split at h
    · exact absurd h (by simp)
    · cases h
      rename_i hc
      simp only [Bool.or_eq_true, decide_eq_true_eq, not_or] at hc
      exact ⟨by omega, by omega, fun s2 hs2 => by cases hs2; rfl⟩

theorem validateSource_ok (os : Option String) (m : String)
    (h : validateSource os = .ok m) :
    1 ≤ m.length ∧ m.length ≤ 100 := by
  cases os with
  | none => cases h; exact ⟨by decide, by decide⟩
  | some s =>
    simp only [validateSource] at h
    split at h
    · exact absurd h (by simp)
    · cases h
      rename_i hc
      simp only [Bool.or_eq_true, decide_eq_true_eq, not_or] at hc
      exact ⟨by omega, by omega⟩

theorem validateImportance_ok (oi : Option (Option Int)) (imp : Option Int)
    (h : validateImportance oi = .ok imp) :
    (∀ n, imp = some n → 1 ≤ n ∧ n ≤ 5) ∧ (oi = none → imp = some 3) := by
  cases oi with
  | none =>
    cases h
    exact ⟨fun n hn => by cases hn; exact ⟨by decide, by decide⟩,
      fun _ => rfl⟩
  | some oi2 =>
    cases oi2 with
    | none =>
      cases h
      exact ⟨(fun n hn => nomatch hn), (fun hh => nomatch hh)⟩
    | some n =>
      simp only [validateImportance] at h
      split at h
      · exact absurd h (by simp)
      · cases h
        rename_i hc
        simp only [Bool.or_eq_true, decide_eq_true_eq, not_or] at hc
        exact ⟨(fun n2 hn2 => by cases hn2; omega), (fun hh => nomatch hh)⟩

/-- What a successfully validated item looks like. -/
theorem validateMemoryItem_ok (inp : MemoryItemInput) (item : MemoryItem)
    (h : validateMemoryItem inp = .ok item) :
    (1 ≤ item.memory.length ∧ item.memory.length ≤ 500) ∧
    (1 ≤ item.source.length ∧ item.source.length ≤ 100) ∧
    (∀ n, item.importance = some n → 1 ≤ n ∧ n ≤ 5) ∧
    (inp.importance = none → item.importance = some 3) ∧
    (∀ s, inp.memory = some s → item.memory = pyStrip s) := by
  unfold validateMemoryItem at h
  cases hm : validateMemory inp.memory <;> rw [hm] at h
  · exact absurd h (by simp)
  · cases hs : validateSource inp.source <;> rw [hs] at h
    · exact absurd h (by simp)
    · cases hi : validateImportance inp.importance <;> rw [hi] at h
      · exact absurd h (by simp)
      · cases h
        obtain ⟨m1, m2, m3⟩ := validateMemory_ok _ _ hm
        obtain ⟨s1, s2⟩ := validateSource_ok _ _ hs
        obtain ⟨i1, i2⟩ := validateImportance_ok _ _ hi
        exact ⟨⟨m1, m2⟩, ⟨s1, s2⟩, i1, i2, m3⟩

/-- The batch with one item whose importance is 7: rejected by pydantic
validation (FastAPI answers 422), not accepted with a clamped importance. -/
def memInpBad : MemoryItemInput := ⟨some "remember this", some "chat", some (some 7)⟩

/-- C8 counterexample: a 1-item batch whose `importance` is 7 — under the
claim it would be accepted and stored with importance clamped into 1..5,
but `add_memories` rejects it with a request-validation error instead. -/
theorem claim8_importance_not_clamped_counterexample :
    add_memories true "user-1" [memInpBad] =
      .error (.validationError "importance: out of range") := rfl

/-- C8 (amended): a validated batch of 0 items is rejected with 400, a
validated batch of more than 5 items is rejected with 400, each item is
independently validated (memory 1..500 chars after strip, source 1..100
chars after strip, importance *must already lie in* 1..5 and defaults to 3
when the key is absent — out-of-range importance fails validation rather
than being clamped), and an accepted batch of n validated items inserts
exactly n rows, each with importance in 1..5. -/
theorem claim8_add_memories_amended :
    (∀ uid, add_memories true uid [] = .error (.httpEx ⟨400, "No memories provided"⟩)) ∧
    (∀ uid payload items, validateItems payload = .ok items → payload.length > 5 →
      add_memories true uid payload =
        .error (.httpEx ⟨400, "Maximum 5 memories per request"⟩)) ∧
    (∀ inp item, validateMemoryItem inp = .ok item →
      (1 ≤ item.memory.length ∧ item.memory.length ≤ 500) ∧
      (1 ≤ item.source.length ∧ item.source.length ≤ 100) ∧
      (∀ n, item.importance = some n → 1 ≤ n ∧ n ≤ 5) ∧
      (inp.importance = none → item.importance = some 3)) ∧
    (∀ uid payload items, validateItems payload = .ok items →
      1 ≤ items.length → items.length ≤ 5 →
      add_memories true uid payload =
        .ok (items.map fun mem =>
          ⟨uid, pyStrip mem.memory, pyStrip mem.source, intOptPyOr mem.importance 3⟩) ∧
      (items.map fun mem =>
        (⟨uid, pyStrip mem.memory, pyStrip mem.source,
          intOptPyOr mem.importance 3⟩ : MemoryRow)).length = items.length ∧
      ∀ row ∈ (items.map fun mem =>
        (⟨uid, pyStrip mem.memory, pyStrip mem.source,
          intOptPyOr mem.importance 3⟩ : MemoryRow)),
        1 ≤ row.importance ∧ row.importance ≤ 5) := by
  refine ⟨?_, ?_, ?_, ?_⟩
  · intro uid; rfl
  · intro uid payload items hval hlen
    have hlen2 := validateItems_ok_length payload items hval
    unfold add_memories
    rw [hval]
    have h0 : ¬(items.length = 0) := by omega
    have h5 : items.length > 5 := by omega
    simp [h0, h5]
  · intro inp item h
    obtain ⟨hm, hs, hi, hd, _⟩ := validateMemoryItem_ok inp item h
    exact ⟨hm, hs, hi, hd⟩
  · intro uid payload items hval hge hle
    refine ⟨?_, by simp, ?_⟩
    · unfold add_memories
      rw [hval]
      have h0 : ¬(items.length = 0) := by omega
      have h5 : ¬(items.length > 5) := by omega
      simp [h0, h5]
    · intro row hrow
      rcases List.mem_map.mp hrow with ⟨item, hmem, heq⟩
      rcases validateItems_ok_mem payload items hval item hmem with ⟨inp, _, hok⟩
      obtain ⟨_, _, hi, _, _⟩ := validateMemoryItem_ok inp item hok
      subst heq
      cases himp : item.importance with
      | none => simp [intOptPyOr, himp]
      | some n =>
        have := hi n himp
        simp only [intOptPyOr, himp]
        have hn0 : ¬(n = 0) := by omega
        simp [hn0]
        omega

/-- Five valid items, each with importance 4. -/
def memInp5 : List MemoryItemInput :=
  List.replicate 5 ⟨some "note", some "chat", some (some 4)⟩

/-- Witness for C8: a batch of five valid items is accepted and inserts
exactly five rows. -/
theorem claim8_add_memories_amended_witness :
    add_memories true "user-1" memInp5 =
      .ok (List.replicate 5 ⟨"user-1", "note", "chat", 4⟩) ∧
    (List.replicate 5 (⟨"user-1", "note", "chat", 4⟩ : MemoryRow)).length = 5 :=
  ⟨(claim8_add_memories_amended.2.2.2 "user-1" memInp5
      (List.replicate 5 ⟨"note", "chat", some 4⟩) rfl (by decide) (by decide)).1,
   rfl⟩

end Qtma

namespace Qtma

/-! ### C5 — `resolve_slugs` contract -/

/-- The trimmed, emptiness-filtered slug list parsed from a requested comma
list (line 122 of `service.py`). -/
def parsedSlugs (requested : Option String) : List String :=
  ((pySplitComma (requested.getD "")).map pyStrip).filter (fun s => !s.isEmpty)

theorem resolve_slugs_parsed (st : ServiceState) (req : Option String)
    (htr : optStrTruthy req = true) :
    resolve_slugs st req =
      (if (parsedSlugs req).isEmpty then
        .error ⟨400, "No valid industries were provided."⟩
       else
        match firstUnknown st (parsedSlugs req) with
        | some bad => .error ⟨404, unknownSlugDetail st bad⟩
        | none => .ok (dedupFirst (parsedSlugs req))) := by
  unfold resolve_slugs parsedSlugs
  rw [htr]
  rfl

/-- C5: `resolve_slugs` returns all configured slugs in registry-insertion
order (with no duplicates, as the concrete registry shows) when nothing is
requested; rejects a non-empty request whose entries all trim away with 400;
rejects any unknown listed slug with 404, and that happens before any
per-slug fetch is consulted (the bulk endpoint's result is the same 404 for
*every* outcome oracle); and otherwise returns the trimmed slugs
deduplicated in first-occurrence order — concretely,
`"finance,finance,technology"` yields `["finance", "technology"]`. -/
theorem claim5_resolve_slugs_contract :
    (∀ st : ServiceState, resolve_slugs st none = .ok (st.configs.map Prod.fst)) ∧
    (resolve_slugs newsServiceState none =
        .ok ["technology", "finance", "healthcare", "energy", "retail",
             "transportation"] ∧
      (["technology", "finance", "healthcare", "energy", "retail",
        "transportation"] : List String).Nodup) ∧
    (∀ (st : ServiceState) (req : Option String),
      optStrTruthy req = true → parsedSlugs req = [] →
      resolve_slugs st req = .error ⟨400, "No valid industries were provided."⟩) ∧
    (∀ (st : ServiceState) (req : Option String) (bad : String),
      optStrTruthy req = true → parsedSlugs req ≠ [] →
      firstUnknown st (parsedSlugs req) = some bad →
      resolve_slugs st req = .error ⟨404, unknownSlugDetail st bad⟩) ∧
    (∀ (st : ServiceState) (industries : Option String) (e : HTTPException)
       (outcomes1 outcomes2 : String → Except SvcError IndustryNewsResponse),
      resolve_slugs st industries = .error e →
      fetch_multiple_industries st outcomes1 industries = .error (.httpEx e) ∧
      fetch_multiple_industries st outcomes1 industries =
        fetch_multiple_industries st outcomes2 industries) ∧
    (∀ (st : ServiceState) (req : Option String),
      optStrTruthy req = true → parsedSlugs req ≠ [] →
      firstUnknown st (parsedSlugs req) = none →
      resolve_slugs st req = .ok (dedupFirst (parsedSlugs req))) ∧
    resolve_slugs newsServiceState (some "finance,finance,technology") =
      .ok ["finance", "technology"] := by
  refine ⟨?_, ⟨rfl, by decide⟩, ?_, ?_, ?_, ?_, rfl⟩
  · intro st; rfl
  · intro st req htr hempty
    rw [resolve_slugs_parsed st req htr, hempty]
    rfl
  · intro st req bad htr hne hbad
    rw [resolve_slugs_parsed st req htr,
        if_neg (by simp [List.isEmpty_iff, hne]), hbad]
  · intro st industries e outcomes1 outcomes2 herr
    unfold fetch_multiple_industries
    rw [herr]
    exact ⟨rfl, rfl⟩
  · intro st req htr hne hnone
    rw [resolve_slugs_parsed st req htr,
        if_neg (by simp [List.isEmpty_iff, hne]), hnone]

/-- An outcome oracle that fails every slug (never consulted in the 404
path, as the theorem shows). -/
def outcomesFail : String → Except SvcError IndustryNewsResponse :=
  fun _ => .error (.pyErr "boom")

/-- Witness for C5: an all-whitespace request, an unknown slug in the bulk
request (same 404 whatever the per-slug outcomes would have been), and a
trimmed duplicate request. -/
theorem claim5_resolve_slugs_contract_witness :
    resolve_slugs newsServiceState (some " , ") =
      .error ⟨400, "No valid industries were provided."⟩ ∧
    resolve_slugs newsServiceState (some "technology,bogus") =
      .error ⟨404, unknownSlugDetail newsServiceState "bogus"⟩ ∧
    fetch_multiple_industries newsServiceState outcomesFail
        (some "technology,bogus") =
      .error (.httpEx ⟨404, unknownSlugDetail newsServiceState "bogus"⟩) ∧
    resolve_slugs newsServiceState (some " finance ,technology") =
      .ok ["finance", "technology"] :=
  ⟨claim5_resolve_slugs_contract.2.2.1 newsServiceState (some " , ") rfl rfl,
   claim5_resolve_slugs_contract.2.2.2.1 newsServiceState (some "technology,bogus")
     "bogus" rfl (by decide) rfl,
   (claim5_resolve_slugs_contract.2.2.2.2.1 newsServiceState
     (some "technology,bogus") ⟨404, unknownSlugDetail newsServiceState "bogus"⟩
     outcomesFail outcomesFail rfl).1,
   claim5_resolve_slugs_contract.2.2.2.2.2.1 newsServiceState
     (some " finance ,technology") rfl (by decide) rfl⟩

end Qtma

namespace Qtma

/-! ### C6 — malformed-article filtering -/

/-- A kept, successfully validated dict yields non-empty title and url. -/
theorem ofDict_keep_nonempty (d : ArticleDict) (a : Article)
    (ho : Article.ofDict d = .ok a) (hk : keepArticle d = true) :
    a.title.isEmpty = false ∧ a.url.isEmpty = false := by
  cases ht : d.title <;> cases hu : d.url <;>
    simp [Article.ofDict, ht, hu] at ho
  rename_i t u
  cases hdesc : d.description.asOptStr <;> cases hsrc : d.source.asOptStr <;>
    rw [hdesc, hsrc] at ho <;> simp at ho
  simp only [keepArticle, ht, hu, Json.truthy, Bool.and_eq_true] at hk
  cases ho
  exact ⟨by simpa using hk.1, by simpa using hk.2⟩

/-- The filtered comprehension returns exactly the validated images of the
kept dicts, in order. -/
theorem buildArticles_forall2 :
    ∀ (dicts : List ArticleDict) (articles : List Article),
      buildArticles dicts = .ok articles →
      List.Forall₂ (fun a d => Article.ofDict d = .ok a) articles
        (dicts.filter keepArticle) := by
  intro dicts
  induction dicts with
  | nil => intro articles h; cases h; exact List.Forall₂.nil
  | cons d rest ih =>
    intro articles h
    unfold buildArticles at h
    by_cases hk : keepArticle d = true
    · rw [if_pos hk] at h
      cases ho : Article.ofDict d <;> rw [ho] at h
      · exact absurd h (by simp)
      · cases hr : buildArticles rest <;> rw [hr] at h
        · exact absurd h (by simp)
        · cases h
          rw [List.filter_cons_of_pos hk]
          exact List.Forall₂.cons ho (ih _ hr)
    · rw [if_neg hk] at h
      rw [List.filter_cons_of_neg (by simpa using hk)]
      exact ih _ h

/-- Fixtures: one well-formed and one malformed (missing url) article per
provider wire format. -/
def gnewsRT : Json := .obj [("articles", .arr [
  .obj [("title", .str "Good"), ("description", .str "d"),
        ("url", .str "https://g"), ("source", .obj [("name", .str "Src")])],
  .obj [("title", .str "Bad")]])]

def fmpRT : Json := .arr [
  .obj [("title", .str "Good"), ("text", .str "d"),
        ("url", .str "https://g"), ("site", .str "Site")],
  .obj [("title", .str "Bad"), ("url", .str "")]]

def newsdataRT : Json := .obj [("results", .arr [
  .obj [("title", .str "Good"), ("description", .str "d"),
        ("link", .str "https://g"), ("source_id", .str "src1")],
  .obj [("title", .str "Bad")]])]

def gdeltRT : Json := .obj [("articles", .arr [
  .obj [("title", .str "Good"), ("seendate", .str "2024"),
        ("url", .str "https://g"), ("sourceCommonName", .str "SC")],
  .obj [("seendate", .str "2024"), ("url", .str "https://g")]])]

def guardianRT : Json := .obj [("response", .obj [("results", .arr [
  .obj [("webTitle", .str "Good"), ("fields", .obj [("trailText", .str "d")]),
        ("webUrl", .str "https://g")],
  .obj [("webTitle", .str "Bad"), ("webUrl", .str "")]])])]

def newsapiRT : Json := .obj [("articles", .arr [
  .obj [("title", .str "Good"), ("description", .str "d"),
        ("url", .str "https://g"), ("source", .obj [("name", .str "Src")])],
  .obj [("title", .str ""), ("url", .str "https://bad")]])]

def alphaRT : Json := .obj [("feed", .arr [
  .obj [("title", .str "Good"), ("summary", .str "d"),
        ("url", .str "https://g"), ("source", .str "S1")],
  .obj [("title", .str "Bad")]])]

/-- C6: for every payload, every article of a successfully built result has
a non-empty title and a non-empty url, and the result consists exactly of
the validated kept dicts in order (articles with an absent or empty title or
url are excluded, since `keepArticle` is Python truthiness of both fields);
and for each of the seven provider formats, a payload with one well-formed
and one malformed article yields exactly one article. -/
theorem claim6_malformed_articles_excluded :
    (∀ (dicts : List ArticleDict) (articles : List Article),
      buildArticles dicts = .ok articles →
      (∀ a ∈ articles, a.title.isEmpty = false ∧ a.url.isEmpty = false) ∧
      List.Forall₂ (fun a d => Article.ofDict d = .ok a) articles
        (dicts.filter keepArticle)) ∧
    (parse_gnews gnewsRT).bind buildArticles =
      .ok [⟨"Good", some "d", "https://g", none, some "Src"⟩] ∧
    (parse_fmp fmpRT).bind buildArticles =
      .ok [⟨"Good", some "d", "https://g", none, some "Site"⟩] ∧
    (parse_newsdata newsdataRT).bind buildArticles =
      .ok [⟨"Good", some "d", "https://g", none, some "src1"⟩] ∧
    (parse_gdelt gdeltRT).bind buildArticles =
      .ok [⟨"Good", some "2024", "https://g", none, some "SC"⟩] ∧
    (parse_guardian guardianRT).bind buildArticles =
      .ok [⟨"Good", some "d", "https://g", none, some "The Guardian"⟩] ∧
    (parse_newsapi newsapiRT).bind buildArticles =
      .ok [⟨"Good", some "d", "https://g", none, some "Src"⟩] ∧
    (parse_alphavantage alphaRT).bind buildArticles =
      .ok [⟨"Good", some "d", "https://g", none, some "S1"⟩] := by
  refine ⟨?_, rfl, rfl, rfl, rfl, rfl, rfl, rfl⟩
  intro dicts articles h
  have hf2 := buildArticles_forall2 dicts articles h
  refine ⟨?_, hf2⟩
  have general : ∀ (as2 : List Article) (ds2 : List ArticleDict),
      (∀ d ∈ ds2, keepArticle d = true) →
      List.Forall₂ (fun a d => Article.ofDict d = .ok a) as2 ds2 →
      ∀ a ∈ as2, a.title.isEmpty = false ∧ a.url.isEmpty = false := by
    intro as2 ds2 hkeep hf
    induction hf with
    | nil => intro a hmem; exact absurd hmem (by simp)
    | cons hrel hrest ihh =>
      rename_i a2 d2 as3 ds3
      intro a hmem
      rcases List.mem_cons.mp hmem with heq | htail
      · subst heq
        exact ofDict_keep_nonempty d2 a hrel (hkeep d2 (List.mem_cons_self d2 ds3))
      · exact ihh (fun d hd => hkeep d (List.mem_cons_of_mem d2 hd)) a htail
  exact general articles (dicts.filter keepArticle)
    (fun d hd => (List.mem_filter.mp hd).2) hf2

end Qtma

namespace Qtma

/-- A well-formed parsed article dict. -/
def dGood : ArticleDict := ⟨.str "Good", .str "d", .str "https://g", .null, .str "Src"⟩

/-- A malformed parsed article dict (url absent). -/
def dBad : ArticleDict := ⟨.str "Bad", .null, .null, .null, .null⟩

/-- Witness for C6 at a concrete dict list: the malformed dict is excluded
and the surviving article has non-empty title and url. -/
theorem claim6_malformed_articles_excluded_witness :
    (∀ a ∈ [(⟨"Good", some "d", "https://g", none, some "Src"⟩ : Article)],
      a.title.isEmpty = false ∧ a.url.isEmpty = false) ∧
    List.Forall₂ (fun a d => Article.ofDict d = .ok a)
      [(⟨"Good", some "d", "https://g", none, some "Src"⟩ : Article)]
      ([dGood, dBad].filter keepArticle) :=
  claim6_malformed_articles_excluded.1 [dGood, dBad]
    [⟨"Good", some "d", "https://g", none, some "Src"⟩] rfl

end Qtma

namespace Qtma

/-! ### C9 — article order and the provider cap -/

theorem except_bind_error_eq {ε α β : Type} (e : ε) (f : α → Except ε β) :
    (Except.error e >>= f) = .error e := rfl

theorem except_bind_ok_eq {ε α β : Type} (a : α) (f : α → Except ε β) :
    (Except.ok a >>= f) = f a := rfl

/-- A GNews payload carrying eleven well-formed articles. -/
def gnews11 : Json := .obj [("articles", .arr
  (List.replicate 11 (.obj [("title", .str "T"), ("url", .str "https://u")])))]

/-- C9 counterexample: the GNews parser applies no cap, so a payload with 11
articles yields 11 articles in the result — more than the claimed
provider limit of 10. -/
theorem claim9_no_cap_counterexample :
    (parse_gnews gnews11).bind buildArticles =
      .ok (List.replicate 11 ⟨"T", none, "https://u", none, none⟩) ∧
    (List.replicate 11 (⟨"T", none, "https://u", none, none⟩ : Article)).length = 11 ∧
    11 > 10 :=
  ⟨rfl, rfl, by decide⟩

/-- C9 (amended): the result list preserves provider order for every parser
— it is the validated image of the order-preserving sublist of kept dicts —
but a local cap exists only in the Alpha Vantage parser (`articles[:10]`);
the other parsers emit as many articles as the payload contains. -/
theorem claim9_order_preserved_cap_only_alphavantage :
    (∀ (dicts : List ArticleDict) (articles : List Article),
      buildArticles dicts = .ok articles →
      (dicts.filter keepArticle).Sublist dicts ∧
      List.Forall₂ (fun a d => Article.ofDict d = .ok a) articles
        (dicts.filter keepArticle) ∧
      articles.length = (dicts.filter keepArticle).length) ∧
    (∀ (payload : Json) (dicts : List ArticleDict),
      parse_alphavantage payload = .ok dicts → dicts.length ≤ 10) ∧
    (∀ (payload : Json) (dicts : List ArticleDict) (articles : List Article),
      parse_alphavantage payload = .ok dicts → buildArticles dicts = .ok articles →
      articles.length ≤ 10) := by
  have hcap : ∀ (payload : Json) (dicts : List ArticleDict),
      parse_alphavantage payload = .ok dicts → dicts.length ≤ 10 := by
    intro payload dicts h
    unfold parse_alphavantage at h
    cases h1 : payload.getD "feed" (.arr []) <;> rw [h1] at h
    · rw [except_bind_error_eq] at h; exact absurd h (by simp)
    · rw [except_bind_ok_eq] at h
      rename_i feed
      cases h2 : feed.iter <;> rw [h2] at h
      · rw [except_bind_error_eq] at h; exact absurd h (by simp)
      · rw [except_bind_ok_eq] at h
        rename_i items
        cases h3 : items.mapM alphaItem <;> rw [h3] at h
        · rw [except_bind_error_eq] at h; exact absurd h (by simp)
        · rw [except_bind_ok_eq] at h
          cases h
          simp
  refine ⟨?_, hcap, ?_⟩
  · intro dicts articles h
    have hf2 := buildArticles_forall2 dicts articles h
    exact ⟨List.filter_sublist dicts, hf2, hf2.length_eq⟩
  · intro payload dicts articles hp hb
    have h1 := hcap payload dicts hp
    have h2 := (buildArticles_forall2 dicts articles hb).length_eq
    have h3 := List.length_filter_le keepArticle dicts
    omega

/-- An Alpha Vantage payload carrying twelve well-formed feed entries. -/
def alpha12 : Json := .obj [("feed", .arr
  (List.replicate 12 (.obj [("title", .str "T"), ("url", .str "https://u")])))]

/-- Witness for C9 (amended): a 12-entry Alpha Vantage feed is capped to 10
articles, and a concrete filtered build preserves order. -/
theorem claim9_order_preserved_cap_only_alphavantage_witness :
    (List.replicate 10 (⟨.str "T", .null, .str "https://u", .null, .null⟩ :
      ArticleDict)).length ≤ 10 ∧
    (List.replicate 10 (⟨"T", none, "https://u", none, none⟩ : Article)).length ≤ 10 :=
  ⟨claim9_order_preserved_cap_only_alphavantage.2.1 alpha12
      (List.replicate 10 ⟨.str "T", .null, .str "https://u", .null, .null⟩) rfl,
   claim9_order_preserved_cap_only_alphavantage.2.2 alpha12
      (List.replicate 10 ⟨.str "T", .null, .str "https://u", .null, .null⟩)
      (List.replicate 10 ⟨"T", none, "https://u", none, none⟩) rfl rfl⟩

end Qtma

namespace Qtma

/-! ### C3 — bulk fetch aggregation -/

/-- The successful responses, in resolved-slug order. -/
def successesOf (outcomes : String → Except SvcError IndustryNewsResponse)
    (slugs : List String) : List IndustryNewsResponse :=
  slugs.filterMap (fun s => (outcomes s).toOption)

/-- The error records, in resolved-slug order. -/
def errorsOf (outcomes : String → Except SvcError IndustryNewsResponse)
    (slugs : List String) : List SlugError :=
  slugs.filterMap (fun s =>
    match outcomes s with
    | .ok _ => none
    | .error e => some (slugError s e))

theorem aggregateResponses_eq (outcomes : String → Except SvcError IndustryNewsResponse) :
    ∀ slugs : List String,
      aggregateResponses (slugs.map (fun s => (s, outcomes s))) =
        (successesOf outcomes slugs, errorsOf outcomes slugs) := by
  intro slugs
  induction slugs with
  | nil => rfl
  | cons s rest ih =>
    simp only [List.map_cons, aggregateResponses, ih]
    cases h : outcomes s <;>
      simp [successesOf, errorsOf, h, List.filterMap_cons, Except.toOption]

theorem successesOf_all_fail (outcomes : String → Except SvcError IndustryNewsResponse) :
    ∀ slugs : List String, (∀ s ∈ slugs, (outcomes s).isOk = false) →
      successesOf outcomes slugs = [] := by
  intro slugs
  induction slugs with
  | nil => intro _; rfl
  | cons s rest ih =>
    intro hall
    have hs := hall s (List.mem_cons_self s rest)
    cases h : outcomes s
    · simp only [successesOf, List.filterMap_cons, h, Except.toOption]
      exact ih (fun s2 hs2 => hall s2 (List.mem_cons_of_mem s hs2))
    · rw [h] at hs; exact absurd hs (by simp [Except.isOk, Except.toBool])

theorem errorsOf_length_all_fail (outcomes : String → Except SvcError IndustryNewsResponse) :
    ∀ slugs : List String, (∀ s ∈ slugs, (outcomes s).isOk = false) →
      (errorsOf outcomes slugs).length = slugs.length := by
  intro slugs
  induction slugs with
  | nil => intro _; rfl
  | cons s rest ih =>
    intro hall
    have hs := hall s (List.mem_cons_self s rest)
    cases h : outcomes s
    · simp only [errorsOf, List.filterMap_cons, h, List.length_cons]
      exact congrArg (fun n => n + 1)
        (ih (fun s2 hs2 => hall s2 (List.mem_cons_of_mem s hs2)))
    · rw [h] at hs; exact absurd hs (by simp [Except.isOk, Except.toBool])

/-- C3: per-slug outcomes are captured independently — every success
appears in `results` (in resolved-slug order) and every failure appears in
`errors` with its slug; if every slug failed the bulk call raises 503 with
the full error list (one entry per slug); if at least one succeeded it
returns the aggregated response. -/
theorem claim3_bulk_partial_failure :
    ∀ (st : ServiceState) (outcomes : String → Except SvcError IndustryNewsResponse)
      (industries : Option String) (slugs : List String),
      resolve_slugs st industries = .ok slugs → slugs ≠ [] →
      ((∀ s ∈ slugs, (outcomes s).isOk = false) →
        fetch_multiple_industries st outcomes industries =
          .error (.allFailed (errorsOf outcomes slugs)) ∧
        (errorsOf outcomes slugs).length = slugs.length) ∧
      ((∃ s ∈ slugs, (outcomes s).isOk = true) →
        fetch_multiple_industries st outcomes industries =
          .ok ⟨successesOf outcomes slugs, errorsOf outcomes slugs⟩) ∧
      (∀ s ∈ slugs, ∀ r, outcomes s = .ok r → r ∈ successesOf outcomes slugs) ∧
      (∀ s ∈ slugs, ∀ e, outcomes s = .error e →
        slugError s e ∈ errorsOf outcomes slugs) := by
  intro st outcomes industries slugs hres hne
  refine ⟨?_, ?_, ?_, ?_⟩
  · intro hall
    have hlen := errorsOf_length_all_fail outcomes slugs hall
    have hsucc := successesOf_all_fail outcomes slugs hall
    have herrne : (errorsOf outcomes slugs).isEmpty = false := by
      cases herr : errorsOf outcomes slugs
      · rw [herr] at hlen
        exact absurd (List.length_eq_zero.mp hlen.symm) hne
      · rfl
    refine ⟨?_, hlen⟩
    simp only [fetch_multiple_industries, hres]
    rw [aggregateResponses_eq]
    simp [hsucc, herrne]
  · intro ⟨s, hmem, hok⟩
    have hsne : (successesOf outcomes slugs).isEmpty = false := by
      cases h : outcomes s
      · rw [h] at hok; exact absurd hok (by simp [Except.isOk, Except.toBool])
      · rename_i r
        have : r ∈ successesOf outcomes slugs :=
          List.mem_filterMap.mpr ⟨s, hmem, by rw [h]; rfl⟩
        cases hs2 : successesOf outcomes slugs
        · rw [hs2] at this; exact absurd this (by simp)
        · rfl
    simp only [fetch_multiple_industries, hres]
    rw [aggregateResponses_eq]
    simp [hsne]
  · intro s hmem r hok
    exact List.mem_filterMap.mpr ⟨s, hmem, by rw [hok]; rfl⟩
  · intro s hmem e herr
    exact List.mem_filterMap.mpr ⟨s, hmem, by rw [herr]⟩

/-- The response `wOk` produces for the `finance` slug. -/
def respFin : IndustryNewsResponse := ⟨"Finance", "finance", "Alpha Vantage", [], "S"⟩

/-- The spec's worked example: the technology fetch times out, finance
succeeds. -/
def outcomesMixed : String → Except SvcError IndustryNewsResponse :=
  fun s => if s = "technology" then .error (.httpEx ⟨504, "GNews timed out: t"⟩)
           else .ok respFin

/-- Witness for C3 at the spec's worked example: HTTP 200 with
`results = [finance]` and `errors = [{slug: technology, status_code: 504}]`. -/
theorem claim3_bulk_partial_failure_witness :
    fetch_multiple_industries newsServiceState outcomesMixed
      (some "technology,finance") =
      .ok ⟨[respFin], [⟨"technology", 504, "GNews timed out: t"⟩]⟩ :=
  (claim3_bulk_partial_failure newsServiceState outcomesMixed
    (some "technology,finance") ["technology", "finance"] rfl (by decide)).2.1
    ⟨"finance", by decide, rfl⟩

end Qtma

namespace Qtma

/-! ### C7 — prompt context assembly under upstream failure -/

/-- A world where only the onboarding read raises. -/
def ctxWorldBad : CtxWorld :=
  { onboardingRead := .error "db down", memoriesRead := fun _ => .ok [],
    newsHooksRead := .ok [], vectorSearch := fun _ => .ok [],
    qdrantConfigured := true }

/-- C7 counterexample: a failing onboarding read propagates out of
`build_prompt_context` — the claim says every upstream read failure degrades
to placeholder content, but only the news-hook and vector-search calls are
wrapped in `try`. -/
theorem claim7_onboarding_failure_raises_counterexample :
    build_prompt_context ctxWorldBad "user-1" none 5 3 5 = .error "db down" := rfl

/-- C7 (amended): when the onboarding and memory reads succeed (with any
row sets, including empty ones), `build_prompt_context` returns a bundle for
every behaviour of the news-hook lookup and the vector search — those two
degrade to empty content on failure; a failure of the onboarding read or the
memory read, however, propagates (see the counterexample). -/
theorem claim7_degraded_sections_amended :
    ∀ (w : CtxWorld) (uid : String) (query : Option String)
      (memory_limit news_limit search_top_k : Nat)
      (rows : List OnbRecord) (mems : List MemRecord),
      w.onboardingRead = .ok rows →
      w.memoriesRead memory_limit = .ok mems →
      ∃ b, build_prompt_context w uid query memory_limit news_limit search_top_k =
          .ok b ∧
        (∀ e, w.newsHooksRead = .error e → b.news = []) ∧
        (∀ e, w.vectorSearch search_top_k = .error e → b.vector_matches = []) ∧
        b.onboarding = rows.head? ∧ b.memories = mems := by
  intro w uid query ml nl k rows mems hon hmem
  simp only [build_prompt_context, hon, hmem, except_bind_ok_eq]
  refine ⟨_, rfl, ?_, ?_, rfl, rfl⟩
  · intro e he
    simp [he]
  · intro e he
    simp [he]

/-- A world with successful row-store reads and failing news/vector lookups. -/
def ctxWorldDegraded : CtxWorld :=
  { onboardingRead := .ok [], memoriesRead := fun _ => .ok [],
    newsHooksRead := .error "hooks down", vectorSearch := fun _ => .error "qdrant down",
    qdrantConfigured := true }

/-- Witness for C7 (amended): both optional sections fail, the assembly
still returns a bundle with empty news and vector content. -/
theorem claim7_degraded_sections_amended_witness :
    ∃ b, build_prompt_context ctxWorldDegraded "user-1" (some "q") 5 3 5 = .ok b ∧
      (∀ e, ctxWorldDegraded.newsHooksRead = .error e → b.news = []) ∧
      (∀ e, ctxWorldDegraded.vectorSearch 5 = .error e → b.vector_matches = []) ∧
      b.onboarding = ([] : List OnbRecord).head? ∧ b.memories = ([] : List MemRecord) :=
  claim7_degraded_sections_amended ctxWorldDegraded "user-1" (some "q") 5 3 5
    [] [] rfl rfl

end Qtma
